import Mathlib

/-
Verification of the helion web frontend (Next.js pages under web/app and the
shared cluster-validation library) against its natural-language specification.
Strings are modelled by Lean strings; the JavaScript string operations
toLowerCase, trim, endsWith and join are embedded as executable functions on
the underlying character lists (faithful for the ASCII data these pages
handle).  JSON values produced by JSON.parse are embedded as the inductive
type JsonVal; JavaScript numbers are modelled as rationals.
-/

namespace Helion

/-- Embeds JavaScript String.prototype.toLowerCase for one character
(ASCII range, which covers all severity and tier strings in the app). -/
def lowerChar (c : Char) : Char :=
  if 'A' ≤ c ∧ c ≤ 'Z' then Char.ofNat (c.toNat + 32) else c

/-- Embeds JavaScript String.prototype.toLowerCase. -/
def lowerStr (s : String) : String :=
  ⟨s.data.map lowerChar⟩

/-- Embeds JavaScript String.prototype.trim: strip whitespace from both ends. -/
def trimStr (s : String) : String :=
  ⟨((s.data.dropWhile Char.isWhitespace).reverse.dropWhile Char.isWhitespace).reverse⟩

/-- Embeds JavaScript String.prototype.endsWith. -/
def strEndsWith (s post : String) : Bool :=
  post.data.isSuffixOf s.data

/-- Embeds JavaScript Array.prototype.join(" ") on an array of strings. -/
def joinSpace : List String → String
  | [] => ""
  | [e] => e
  | e :: rest => e ++ " " ++ joinSpace rest

/-- Result of JSON.parse: a JavaScript value. -/
inductive JsonVal where
  | jnull
  | jbool (b : Bool)
  | jnum (q : ℚ)
  | jstr (s : String)
  | jarr (xs : List JsonVal)
  | jobj (fields : List (String × JsonVal))

/-- Property read o.key on a parsed JavaScript object (none models undefined). -/
def getField (fields : List (String × JsonVal)) (key : String) : Option JsonVal :=
  List.lookup key fields

/-- Embeds the check typeof x === "string" followed by use of the string. -/
def asString : Option JsonVal → Option String
  | some (JsonVal.jstr s) => some s
  | _ => none

/-- VulnerabilityCluster as validated by web/lib/clusterValidation.ts:
required vulnerability_id, severity, repo, cvss_score, description,
finding_ids, affected_services_count, finding_count; optional file_path
and dependency. -/
structure VulnerabilityCluster where
  vulnerability_id : String
  severity : String
  repo : String
  file_path : Option String
  dependency : Option String
  cvss_score : ℚ
  description : String
  finding_ids : List String
  affected_services_count : ℚ
  finding_count : ℚ
deriving DecidableEq

namespace ClusterValidation

/-- Constant MAX_CLUSTERS from web/lib/clusterValidation.ts. -/
def MAX_CLUSTERS : Nat := 100

/-- Constant CLUSTER_SEVERITIES from web/lib/clusterValidation.ts. -/
def CLUSTER_SEVERITIES : List String := ["critical", "high", "medium", "low", "info"]

/-- Embeds o.finding_ids validation: Array.isArray plus every element a string,
returning the typed list exactly when all elements are strings. -/
def allStrings : List JsonVal → Option (List String)
  | [] => some []
  | JsonVal.jstr s :: rest => (allStrings rest).map (fun l => s :: l)
  | _ => none

/-- Error message raised when a cluster object fails field validation. -/
def missingFieldsMsg (i : Nat) : String :=
  "Cluster at index " ++ toString i ++ ": missing or invalid required fields (vulnerability_id, severity, repo, cvss_score, description, finding_ids, affected_services_count, finding_count)."

/-- Error message raised when an array element is not a JavaScript object. -/
def notObjectMsg (i : Nat) : String :=
  "Cluster at index " ++ toString i ++ ": must be an object."

/-- Error message raised when more than MAX_CLUSTERS clusters are pasted. -/
def tooManyClustersMsg : String :=
  "At most " ++ toString MAX_CLUSTERS ++ " clusters are allowed."

/-- Error message raised when the parsed JSON is neither an array nor an
object carrying a clusters array. -/
def notClustersShapeMsg : String :=
  "Expected a ClustersResponse object (with clusters array) or a raw clusters array."

/-- Combined required-field check of parsePastedClusters: all eight required
fields must have validated, otherwise the per-index error is raised. -/
def requiredEight (i : Nat) (fp dep : Option String)
    (vid sev rep : Option String) (cv : Option ℚ) (desc : Option String)
    (fids : Option (List String)) (asc fc : Option ℚ) :
    Except String VulnerabilityCluster :=
  match vid, sev, rep, cv, desc, fids, asc, fc with
  | some v, some s, some r, some c, some d, some f, some a, some n =>
      Except.ok ⟨v, s, r, fp, dep, c, d, f, a, n⟩
  | _, _, _, _, _, _, _, _ => Except.error (missingFieldsMsg i)

/-- Embeds the severity check: a string member of CLUSTER_SEVERITIES. -/
def parseSeverity (fields : List (String × JsonVal)) : Option String :=
  match asString (getField fields "severity") with
  | some s => if CLUSTER_SEVERITIES.contains s then some s else none
  | none => none

/-- Embeds the cvss_score check: typeof number and 0 ≤ score ≤ 10. -/
def parseCvss (fields : List (String × JsonVal)) : Option ℚ :=
  match getField fields "cvss_score" with
  | some (JsonVal.jnum q) => if 0 ≤ q ∧ q ≤ 10 then some q else none
  | _ => none

/-- Embeds the finding_ids check: an array whose elements are all strings. -/
def parseFindingIds (fields : List (String × JsonVal)) : Option (List String) :=
  match getField fields "finding_ids" with
  | some (JsonVal.jarr xs) => allStrings xs
  | _ => none

/-- Embeds the affected_services_count and finding_count checks: typeof
number and non-negative. -/
def parseCount (fields : List (String × JsonVal)) (key : String) : Option ℚ :=
  match getField fields key with
  | some (JsonVal.jnum q) => if 0 ≤ q then some q else none
  | _ => none

/-- Field validation for the object at index i inside parsePastedClusters. -/
def validateFields (i : Nat) (fields : List (String × JsonVal)) :
    Except String VulnerabilityCluster :=
  requiredEight i (asString (getField fields "file_path"))
    (asString (getField fields "dependency"))
    (asString (getField fields "vulnerability_id"))
    (parseSeverity fields)
    (asString (getField fields "repo"))
    (parseCvss fields)
    (asString (getField fields "description"))
    (parseFindingIds fields)
    (parseCount fields "affected_services_count")
    (parseCount fields "finding_count")

/-- Validation of one array element: null and primitives fail the
typeof-object check; JavaScript arrays pass it (typeof [] is "object") but
have none of the required properties. -/
def validateCluster (i : Nat) (item : JsonVal) : Except String VulnerabilityCluster :=
  match item with
  | JsonVal.jobj fields => validateFields i fields
  | JsonVal.jarr _ => validateFields i []
  | _ => Except.error (notObjectMsg i)

/-- Validation loop of parsePastedClusters: elements are checked in order
starting from index i, the first failure aborts with its error. -/
def parseClusterItems : Nat → List JsonVal → Except String (List VulnerabilityCluster)
  | _, [] => Except.ok []
  | i, item :: rest =>
    match validateCluster i item with
    | Except.error e => Except.error e
    | Except.ok c =>
      match parseClusterItems (i + 1) rest with
      | Except.error e => Except.error e
      | Except.ok cs => Except.ok (c :: cs)

/-- Embeds parsePastedClusters from web/lib/clusterValidation.ts, starting
from the value returned by JSON.parse (the earlier empty-text and
JSON-syntax-error branches concern the raw text and are not modelled). -/
def parsePastedClusters (parsed : JsonVal) : Except String (List VulnerabilityCluster) :=
  match parsed with
  | JsonVal.jarr arr =>
    if arr.length > MAX_CLUSTERS then Except.error tooManyClustersMsg
    else parseClusterItems 0 arr
  | JsonVal.jobj fields =>
    match getField fields "clusters" with
    | some (JsonVal.jarr arr) =>
      if arr.length > MAX_CLUSTERS then Except.error tooManyClustersMsg
      else parseClusterItems 0 arr
    | _ => Except.error notClustersShapeMsg
  | _ => Except.error notClustersShapeMsg

end ClusterValidation

/-- Tier labels constant TIER_LABELS shared by the results, tickets and
jira-export pages. -/
def TIER_LABELS : List String := ["Tier 1", "Tier 2", "Tier 3"]

/-- Update of a JavaScript object used as a string map by the spread
expression with a computed key: replace the value when the key is present,
otherwise append the new entry, preserving all other entries. -/
def setOverride (m : List (String × String)) (k v : String) : List (String × String) :=
  if m.any (fun p => p.1 == k) then
    m.map (fun p => if p.1 == k then (k, v) else p)
  else m ++ [(k, v)]

/-- Key deletion on a JavaScript object used as a string map. -/
def removeOverride (m : List (String × String)) (k : String) : List (String × String) :=
  m.filter (fun p => p.1 != k)

namespace Results

/-- Embeds severityToTierLabel from web/app/results/page.tsx. -/
def severityToTierLabel (severity : String) : String :=
  let s := trimStr (lowerStr severity)
  if s = "critical" then "Tier 1"
  else if s = "high" then "Tier 2"
  else "Tier 3"

/-- Counts record initialised to zero for the five canonical severities by
severityBreakdown. -/
structure SeverityCounts where
  critical : Nat
  high : Nat
  medium : Nat
  low : Nat
  info : Nat
deriving DecidableEq

/-- Loop body of severityBreakdown: lowercase and trim the cluster severity
and increment its slot when it is one of the five keys, else count nothing. -/
def bumpSeverity (counts : SeverityCounts) (sev : String) : SeverityCounts :=
  let s := trimStr (lowerStr sev)
  if s = "critical" then { counts with critical := counts.critical + 1 }
  else if s = "high" then { counts with high := counts.high + 1 }
  else if s = "medium" then { counts with medium := counts.medium + 1 }
  else if s = "low" then { counts with low := counts.low + 1 }
  else if s = "info" then { counts with info := counts.info + 1 }
  else counts

/-- Embeds severityBreakdown from web/app/results/page.tsx. -/
def severityBreakdown (clusters : List VulnerabilityCluster) : SeverityCounts :=
  clusters.foldl (fun acc c => bumpSeverity acc c.severity) ⟨0, 0, 0, 0, 0⟩

/-- Specification-side count used to state C3: the number of clusters whose
severity lowercased and trimmed equals the given canonical value. -/
def sevCount (clusters : List VulnerabilityCluster) (v : String) : Nat :=
  (clusters.filter (fun c => trimStr (lowerStr c.severity) == v)).length

/-- Embeds the tierOverrides initialisation performed by
handleManualOverrideChange when the manual-override toggle is switched on:
one entry per cluster, valued by the severity fallback mapping. -/
def initTierOverrides (clusters : List VulnerabilityCluster) : List (String × String) :=
  clusters.foldl
    (fun m c => setOverride m c.vulnerability_id (severityToTierLabel c.severity)) []

/-- Embeds handleTierChange from web/app/results/page.tsx: values other than
the three tier labels are ignored (early return), valid labels are stored. -/
def handleTierChange (m : List (String × String)) (vulnerabilityId tier : String) :
    List (String × String) :=
  if tier ≠ "Tier 1" ∧ tier ≠ "Tier 2" ∧ tier ≠ "Tier 3" then m
  else setOverride m vulnerabilityId tier

/-- One issue entry of a JiraExportResponse. -/
structure JiraIssue where
  title : String
  key : String
  tier : String
deriving DecidableEq

/-- JiraExportResponse as received over HTTP; none on a field models the
defensive Array.isArray and typeof-object checks failing for it. -/
structure JiraExportResponse where
  epics : Option (List (String × String))
  issues : Option (List JiraIssue)
  errors : Option (List String)

/-- Export button status of the results page. -/
inductive ExportStatus where
  | idle
  | exporting
  | success
  | error
deriving DecidableEq, BEq

/-- Embeds the response handling of handleExportToJira from
web/app/results/page.tsx: on any HTTP-success response it builds the
message from the issue count, the epic key count and the joined errors, and
sets the status to success. -/
def handleExportToJira (resp : JiraExportResponse) : ExportStatus × String :=
  let errors := match resp.errors with
    | some l => l
    | none => []
  let issueCount := (match resp.issues with
    | some l => l
    | none => []).length
  let epicCount := (match resp.epics with
    | some l => l
    | none => []).length
  let base := "Exported " ++ toString issueCount ++ " issue(s) under "
    ++ toString epicCount ++ " epic(s)."
  let msg := if errors.length > 0 then base ++ " " ++ joinSpace errors else base
  (ExportStatus.success, msg)

end Results

namespace JiraExportPage

/-- Embeds handleTierOverrideChange shared by the tickets and jira-export
pages: the empty string or any value outside TIER_LABELS deletes the entry,
a valid label is stored. -/
def handleTierOverrideChange (m : List (String × String)) (vulnerabilityId value : String) :
    List (String × String) :=
  if value = "" ∨ ¬ TIER_LABELS.contains value then removeOverride m vulnerabilityId
  else setOverride m vulnerabilityId value

/-- Embeds the hasPartialSuccessErrors predicate of the jira-export page. -/
def hasPartialSuccessErrors (status : Results.ExportStatus)
    (resp : Option Results.JiraExportResponse) : Bool :=
  status == Results.ExportStatus.success &&
    (match resp with
     | some r =>
       match r.errors with
       | some l => decide (l.length > 0)
       | none => false
     | none => false)

/-- One tier-override edit: either the shared tickets/jira-export handler or
the results-page handler. -/
inductive TierEdit where
  | overrideChange (k v : String)
  | tierChange (k v : String)

/-- Applies one tier-override edit to the stored map. -/
def applyTierEdit (m : List (String × String)) : TierEdit → List (String × String)
  | TierEdit.overrideChange k v => handleTierOverrideChange m k v
  | TierEdit.tierChange k v => Results.handleTierChange m k v

/-- Applies a sequence of tier-override edits in order. -/
def applyTierEdits (m : List (String × String)) (edits : List TierEdit) :
    List (String × String) :=
  edits.foldl applyTierEdit m

/-- Invariant: every stored override value is one of the three tier labels. -/
def ValidTierMap (m : List (String × String)) : Prop :=
  ∀ p ∈ m, p.2 ∈ TIER_LABELS

end JiraExportPage

namespace Upload

/-- Outcome of the upload form submit handler. -/
inductive SubmitOutcome where
  | noFile
  | rejected (message : String)
  | uploadRequest (fileName : String)
deriving DecidableEq

/-- Embeds the submit validation of handleSubmit from
web/app/upload/page.tsx: no file is a silent no-op; a name whose lowercased
form does not end in ".json" is rejected with a fixed message before any
request is made; otherwise the multipart upload proceeds. -/
def handleSubmit (file : Option String) : SubmitOutcome :=
  match file with
  | none => SubmitOutcome.noFile
  | some fileName =>
    let name := lowerStr fileName
    if !(strEndsWith name ".json") then
      SubmitOutcome.rejected "File must have a .json extension."
    else SubmitOutcome.uploadRequest fileName

/-- One FastAPI validation error item as rendered by the upload page. -/
structure ValidationErrorItem where
  loc : Option (List String)
  msg : String
deriving DecidableEq

/-- Error object caught by the upload submit handler: an optional detail
list of validation errors plus the generic message getErrorMessage yields. -/
structure UploadErrorInfo where
  detail : Option (List ValidationErrorItem)
  generic : String

/-- Embeds the catch branch of handleSubmit: a present non-empty detail list
is stored and the generic message suppressed, otherwise only the generic
message is kept. -/
def uploadFailureState (err : UploadErrorInfo) :
    Option (List ValidationErrorItem) × Option String :=
  match err.detail with
  | some l => if l.length > 0 then (some l, none) else (none, some err.generic)
  | none => (none, some err.generic)

/-- Embeds the rendering of one validation error list item: the loc path
joined by arrows and a colon when loc is non-empty, followed by the msg. -/
def renderValidationItem (v : ValidationErrorItem) : String :=
  (match v.loc with
   | some l => if l.length > 0 then String.intercalate " → " l ++ ": " else ""
   | none => "") ++ v.msg

/-- Embeds the rendered validation-error list: one list item per error. -/
def renderValidationList (l : List ValidationErrorItem) : List String :=
  l.map renderValidationItem

/-- Upload success response. -/
structure UploadResponse where
  accepted : Int
  ids : List Int
deriving DecidableEq

/-- Embeds the success paragraph of the upload page, which displays the
accepted count from the response. -/
def uploadSuccessText (resp : UploadResponse) : String :=
  "Done. Accepted: " ++ toString resp.accepted ++
    (if resp.ids.length > 0 then ". IDs: " ++ toString resp.ids.length else "")

end Upload

namespace RiskTier

/-- Modelled from the spec: the risk tier assigner (backend module
app.services.risk_tier) is not under src/, so its per-cluster state machine
is taken from spec section 4.4.  Cluster fields used by the assigner. -/
structure SpecCluster where
  vulnerability_id : String
  severity : String
  cvss_score : Option ℚ

/-- Modelled from the spec: tier labels supplied in tier_overrides are used
verbatim, as the 1 or 2 or 3 they name. -/
def labelToTierNum (label : String) : Nat :=
  if label = "Tier 1" then 1
  else if label = "Tier 2" then 2
  else 3

/-- Modelled from the spec: rule 4 severity fallback, critical to Tier 1,
high to Tier 2, everything else Tier 3. -/
def severityFallbackTier (severity : String) : Nat :=
  if severity = "critical" then 1
  else if severity = "high" then 2
  else 3

/-- Modelled from the spec: rule 2 deterministic override, cvss_score
strictly above 9 on a cluster that is not dev-only. -/
def cvssCritical (c : SpecCluster) (devOnly : Bool) : Bool :=
  (match c.cvss_score with
   | some q => decide (9 < q)
   | none => false) && !devOnly

/-- Modelled from the spec: the per-cluster tier state machine of section
4.4, evaluated top to bottom with first match winning.  Rule 1 manual
override, rule 2 cvss_critical, rule 3 the reasoning note priority mapped
through the fixed priority-to-tier table (passed in as priorityToTier since
the spec does not list the table), rule 4 severity fallback.  Returns the
assigned tier with the name of the rule that fired. -/
def assignRiskTier (tierOverrides : List (String × String))
    (notes : List (String × String)) (priorityToTier : String → Nat)
    (devOnly : Bool) (c : SpecCluster) : Nat × Option String :=
  match List.lookup c.vulnerability_id tierOverrides with
  | some label => (labelToTierNum label, some "manual")
  | none =>
    if cvssCritical c devOnly then (1, some "cvss_critical")
    else
      match List.lookup c.vulnerability_id notes with
      | some priority => (priorityToTier priority, none)
      | none => (severityFallbackTier c.severity, some "severity_fallback")

end RiskTier

/-- Concrete pasted cluster object, valid in every field, with a pluggable
cvss_score value, used to evaluate the validator at specific inputs. -/
def sampleClusterFields (cv : JsonVal) : List (String × JsonVal) :=
  [("vulnerability_id", JsonVal.jstr "CVE-2023-1234"),
   ("severity", JsonVal.jstr "high"),
   ("repo", JsonVal.jstr "repo-a"),
   ("file_path", JsonVal.jnull),
   ("dependency", JsonVal.jstr "lodash"),
   ("cvss_score", cv),
   ("description", JsonVal.jstr "desc"),
   ("finding_ids", JsonVal.jarr [JsonVal.jstr "f1"]),
   ("affected_services_count", JsonVal.jnum 1),
   ("finding_count", JsonVal.jnum 1)]

/-- Concrete pasted cluster object built from sampleClusterFields. -/
def sampleClusterObj (cv : JsonVal) : JsonVal :=
  JsonVal.jobj (sampleClusterFields cv)

/-- Membership after a spread-update: each entry either came from the old map
or is the newly written entry. -/
theorem mem_setOverride {m : List (String × String)} {k v : String}
    {p : String × String} (h : p ∈ setOverride m k v) : p ∈ m ∨ p = (k, v) := by
  unfold setOverride at h
  split at h
  · rcases List.mem_map.1 h with ⟨q, hq, rfl⟩
    by_cases hqk : q.1 == k
    · right
      simp [hqk]
    · left
      simpa [hqk] using hq
  · rcases List.mem_append.1 h with h1 | h1
    · exact Or.inl h1
    · right
      simpa using h1

/-- Lookup skips a cons cell whose key differs. -/
theorem lookup_cons_ne {k a b : String} (rest : List (String × String))
    (h : (k == a) = false) :
    List.lookup k ((a, b) :: rest) = List.lookup k rest := by
  simp [List.lookup, h]

/-- Lookup stops at a cons cell with a matching key. -/
theorem lookup_cons_eq {k a b : String} (rest : List (String × String)) (h : k = a) :
    List.lookup k ((a, b) :: rest) = some b := by
  simp [List.lookup, h]

/-- Deleting a key removes it from lookup. -/
theorem lookup_removeOverride_self (m : List (String × String)) (k : String) :
    List.lookup k (removeOverride m k) = none := by
  unfold removeOverride
  induction m with
  | nil => rfl
  | cons p rest ih =>
    obtain ⟨a, b⟩ := p
    rw [List.filter_cons]
    by_cases hp : a = k
    · rw [if_neg (by simp [hp])]
      exact ih
    · rw [if_pos (by simp [hp])]
      rw [lookup_cons_ne _ (by simp; exact fun h => hp h.symm)]
      exact ih

/-- Deleting a key leaves every other key unchanged for lookup. -/
theorem lookup_removeOverride_other (m : List (String × String)) (k k' : String)
    (h : k' ≠ k) : List.lookup k' (removeOverride m k) = List.lookup k' m := by
  unfold removeOverride
  induction m with
  | nil => rfl
  | cons p rest ih =>
    obtain ⟨a, b⟩ := p
    rw [List.filter_cons]
    by_cases hp : a = k
    · rw [if_neg (by simp [hp])]
      rw [ih]
      rw [lookup_cons_ne _ (by simp [hp]; exact h)]
    · rw [if_pos (by simp [hp])]
      by_cases hk : k' = a
      · rw [lookup_cons_eq _ hk, lookup_cons_eq _ hk]
      · rw [lookup_cons_ne _ (by simp [hk]), lookup_cons_ne _ (by simp [hk])]
        exact ih

/-- Every member of a joined error array occurs verbatim inside the join. -/
theorem joinSpace_mem_decomp {e : String} :
    ∀ {l : List String}, e ∈ l → ∃ pre post, joinSpace l = pre ++ (e ++ post) := by
  intro l
  induction l with
  | nil => intro h; cases h
  | cons a rest ih =>
    intro h
    rcases List.mem_cons.1 h with rfl | hrest
    · cases rest with
      | nil =>
        exact ⟨"", "", by simp [joinSpace, String.append_empty, String.empty_append]⟩
      | cons b bs =>
        refine ⟨"", " " ++ joinSpace (b :: bs), ?_⟩
        rw [String.empty_append]
        simp [joinSpace, String.append_assoc]
    · cases rest with
      | nil => cases hrest
      | cons b bs =>
        rcases ih hrest with ⟨pre, post, hp⟩
        refine ⟨a ++ " " ++ pre, post, ?_⟩
        show a ++ " " ++ joinSpace (b :: bs) = a ++ " " ++ pre ++ (e ++ post)
        rw [hp, String.append_assoc (a ++ " ") pre (e ++ post)]

/-- Entries of the initial tier-override map all come from some cluster,
valued through the severity fallback mapping. -/
theorem initTierOverrides_mem (clusters : List VulnerabilityCluster) :
    ∀ m (p : String × String),
      p ∈ clusters.foldl
        (fun m c => setOverride m c.vulnerability_id (Results.severityToTierLabel c.severity)) m →
      p ∈ m ∨ ∃ c ∈ clusters, p = (c.vulnerability_id, Results.severityToTierLabel c.severity) := by
  induction clusters with
  | nil =>
    intro m p hp
    exact Or.inl hp
  | cons c rest ih =>
    intro m p hp
    rw [List.foldl_cons] at hp
    rcases ih _ p hp with h | ⟨c', hc', rfl⟩
    · rcases mem_setOverride h with h1 | rfl
      · exact Or.inl h1
      · exact Or.inr ⟨c, List.mem_cons_self c rest, rfl⟩
    · exact Or.inr ⟨c', List.mem_cons_of_mem c hc', rfl⟩

/-- C1: severityToTierLabel is total on severity strings and returns exactly
one of the three tier labels, Tier 1 precisely when the lowercased trimmed
severity is critical, Tier 2 precisely when it is high, Tier 3 for every
other value; and the per-cluster tier selectors enabled by the manual
override toggle are initialised through this same mapping. -/
theorem c1_severity_fallback_tier_mapping :
    (∀ s : String, Results.severityToTierLabel s ∈ TIER_LABELS) ∧
    (∀ s : String,
      (Results.severityToTierLabel s = "Tier 1" ↔ trimStr (lowerStr s) = "critical") ∧
      (Results.severityToTierLabel s = "Tier 2" ↔ trimStr (lowerStr s) = "high") ∧
      (Results.severityToTierLabel s = "Tier 3" ↔
        trimStr (lowerStr s) ≠ "critical" ∧ trimStr (lowerStr s) ≠ "high")) ∧
    (∀ (clusters : List VulnerabilityCluster) (p : String × String),
      p ∈ Results.initTierOverrides clusters →
      p.2 ∈ TIER_LABELS ∧
      ∃ c ∈ clusters, p = (c.vulnerability_id, Results.severityToTierLabel c.severity)) := by
  have hlab : ∀ s : String, Results.severityToTierLabel s ∈ TIER_LABELS := by
    intro s
    unfold Results.severityToTierLabel
    by_cases h1 : trimStr (lowerStr s) = "critical"
    · simp [h1, TIER_LABELS]
    · by_cases h2 : trimStr (lowerStr s) = "high"
      · simp [h1, h2, TIER_LABELS]
      · simp [h1, h2, TIER_LABELS]
  refine ⟨hlab, ?_, ?_⟩
  · intro s
    unfold Results.severityToTierLabel
    by_cases h1 : trimStr (lowerStr s) = "critical"
    · simp [h1]
    · by_cases h2 : trimStr (lowerStr s) = "high"
      · simp [h1, h2]
      · simp [h1, h2]
  · intro clusters p hp
    rcases initTierOverrides_mem clusters [] p hp with h | ⟨c, hc, rfl⟩
    · cases h
    · exact ⟨hlab c.severity, c, hc, rfl⟩

/-- C1 witness: on a concrete cluster list with severity High, the initial
override map holds the Tier 2 entry produced by the severity mapping. -/
theorem c1_severity_fallback_tier_mapping_witness :
    (("CVE-2023-1234", "Tier 2") : String × String).2 ∈ TIER_LABELS ∧
    ∃ c ∈ [(⟨"CVE-2023-1234", "High", "repo-a", none, none, 7, "d", ["f1"], 1, 1⟩ :
        VulnerabilityCluster)],
      (("CVE-2023-1234", "Tier 2") : String × String)
        = (c.vulnerability_id, Results.severityToTierLabel c.severity) :=
  c1_severity_fallback_tier_mapping.2.2
    [⟨"CVE-2023-1234", "High", "repo-a", none, none, 7, "d", ["f1"], 1, 1⟩]
    ("CVE-2023-1234", "Tier 2") (by decide)

/-- C5: submitting a selected file whose lowercased name does not end in
.json fails with the fixed extension message and performs no upload, while
a name ending in .json in any letter case proceeds to the multipart
upload. -/
theorem c5_upload_extension_gate :
    ∀ name : String,
      (strEndsWith (lowerStr name) ".json" = false →
        Upload.handleSubmit (some name)
          = Upload.SubmitOutcome.rejected "File must have a .json extension.") ∧
      (strEndsWith (lowerStr name) ".json" = true →
        Upload.handleSubmit (some name) = Upload.SubmitOutcome.uploadRequest name) := by
  intro name
  constructor <;> intro h <;> simp [Upload.handleSubmit, h]

/-- C5 witness: an uppercase .JSON file proceeds to upload, a .txt file is
rejected with the fixed message. -/
theorem c5_upload_extension_gate_witness :
    (strEndsWith (lowerStr "Findings.JSON") ".json" = true ∧
      Upload.handleSubmit (some "Findings.JSON")
        = Upload.SubmitOutcome.uploadRequest "Findings.JSON") ∧
    (strEndsWith (lowerStr "findings.txt") ".json" = false ∧
      Upload.handleSubmit (some "findings.txt")
        = Upload.SubmitOutcome.rejected "File must have a .json extension.") :=
  ⟨⟨by decide, (c5_upload_extension_gate "Findings.JSON").2 (by decide)⟩,
   ⟨by decide, (c5_upload_extension_gate "findings.txt").1 (by decide)⟩⟩

/-- C7: on a cluster with cvss_score 9.8 that is not dev-only, a manual
override of Tier 3 wins over the CVSS rule and resolves to Tier 3 with
override_applied manual; with no manual override the cluster resolves to
Tier 1 through the cvss_critical rule. -/
theorem c7_manual_beats_cvss :
    ∀ (c : RiskTier.SpecCluster) (notes : List (String × String))
      (priorityToTier : String → Nat),
      c.cvss_score = some (9.8 : ℚ) →
      RiskTier.assignRiskTier [(c.vulnerability_id, "Tier 3")] notes priorityToTier false c
        = (3, some "manual") ∧
      RiskTier.assignRiskTier [] notes priorityToTier false c
        = (1, some "cvss_critical") := by
  intro c notes priorityToTier h
  constructor
  · simp [RiskTier.assignRiskTier, RiskTier.labelToTierNum, List.lookup]
  · have h9 : RiskTier.cvssCritical c false = true := by
      rw [RiskTier.cvssCritical, h]
      simp
      norm_num
    simp [RiskTier.assignRiskTier, List.lookup, h9]

/-- C7 witness: concrete cluster with cvss_score 9.8, evaluated with and
without the manual Tier 3 override. -/
theorem c7_manual_beats_cvss_witness :
    RiskTier.assignRiskTier [("CVE-2024-0001", "Tier 3")] [] (fun _ => 3) false
        ⟨"CVE-2024-0001", "critical", some (9.8 : ℚ)⟩ = (3, some "manual") ∧
    RiskTier.assignRiskTier [] [] (fun _ => 3) false
        ⟨"CVE-2024-0001", "critical", some (9.8 : ℚ)⟩ = (1, some "cvss_critical") :=
  c7_manual_beats_cvss ⟨"CVE-2024-0001", "critical", some (9.8 : ℚ)⟩ [] (fun _ => 3) rfl

/-- Stored values stay within the given property across a spread-update that
writes a value satisfying it. -/
theorem setOverride_values {P : String → Prop} {m : List (String × String)}
    {k v : String} (hm : ∀ p ∈ m, P p.2) (hv : P v) :
    ∀ p ∈ setOverride m k v, P p.2 := by
  intro p hp
  rcases mem_setOverride hp with h | rfl
  · exact hm p h
  · exact hv

/-- The shared override-change handler preserves the three-label invariant. -/
theorem handleTierOverrideChange_valid {m : List (String × String)} {k v : String}
    (hm : JiraExportPage.ValidTierMap m) :
    JiraExportPage.ValidTierMap (JiraExportPage.handleTierOverrideChange m k v) := by
  unfold JiraExportPage.handleTierOverrideChange
  split
  · intro p hp
    exact hm p (List.mem_of_mem_filter hp)
  · rename_i hcond
    have hv : v ∈ TIER_LABELS := by
      rcases not_or.1 hcond with ⟨-, h2⟩
      have h3 := not_not.1 h2
      simpa using h3
    exact setOverride_values hm hv

/-- The results-page tier-change handler preserves the three-label
invariant. -/
theorem handleTierChange_valid {m : List (String × String)} {k v : String}
    (hm : JiraExportPage.ValidTierMap m) :
    JiraExportPage.ValidTierMap (Results.handleTierChange m k v) := by
  unfold Results.handleTierChange
  split
  · exact hm
  · rename_i hcond
    have hv : v ∈ TIER_LABELS := by
      rcases Decidable.not_and_iff_or_not.1 hcond with h | h
      · simp [TIER_LABELS, not_not.1 h]
      · rcases Decidable.not_and_iff_or_not.1 h with h' | h'
        · simp [TIER_LABELS, not_not.1 h']
        · simp [TIER_LABELS, not_not.1 h']
    exact setOverride_values hm hv

/-- One tier-override edit preserves the three-label invariant. -/
theorem applyTierEdit_valid {m : List (String × String)}
    (hm : JiraExportPage.ValidTierMap m) (e : JiraExportPage.TierEdit) :
    JiraExportPage.ValidTierMap (JiraExportPage.applyTierEdit m e) := by
  cases e with
  | overrideChange k v => exact handleTierOverrideChange_valid hm
  | tierChange k v => exact handleTierChange_valid hm

/-- C8 (amended): after any sequence of tier-override edits starting from a
map whose values are all tier labels, every stored value is one of Tier 1,
Tier 2, Tier 3; handleTierOverrideChange deletes the edited id on the empty
string or any value outside the three labels, leaving every other entry
unchanged; handleTierChange instead ignores such values entirely, leaving
the whole map, including the edited id, unchanged. -/
theorem c8_tier_override_invariant :
    (∀ (m₀ : List (String × String)) (edits : List JiraExportPage.TierEdit),
      JiraExportPage.ValidTierMap m₀ →
      JiraExportPage.ValidTierMap (JiraExportPage.applyTierEdits m₀ edits)) ∧
    (∀ (m : List (String × String)) (k v : String),
      v = "" ∨ v ∉ TIER_LABELS →
      List.lookup k (JiraExportPage.handleTierOverrideChange m k v) = none ∧
      ∀ k', k' ≠ k →
        List.lookup k' (JiraExportPage.handleTierOverrideChange m k v)
          = List.lookup k' m) ∧
    (∀ (m : List (String × String)) (k v : String),
      v ∉ TIER_LABELS → Results.handleTierChange m k v = m) := by
  refine ⟨?_, ?_, ?_⟩
  · intro m₀ edits h
    unfold JiraExportPage.applyTierEdits
    induction edits generalizing m₀ with
    | nil => exact h
    | cons e rest ih =>
      rw [List.foldl_cons]
      exact ih _ (applyTierEdit_valid h e)
  · intro m k v hv
    have hcond : v = "" ∨ ¬ TIER_LABELS.contains v = true := by
      rcases hv with h | h
      · exact Or.inl h
      · right
        simpa using h
    unfold JiraExportPage.handleTierOverrideChange
    rw [if_pos hcond]
    exact ⟨lookup_removeOverride_self m k, fun k' hk' => lookup_removeOverride_other m k k' hk'⟩
  · intro m k v hv
    have h3 : v ≠ "Tier 1" ∧ v ≠ "Tier 2" ∧ v ≠ "Tier 3" := by
      simp [TIER_LABELS] at hv
      exact hv
    unfold Results.handleTierChange
    rw [if_pos h3]

/-- C8 witness: a concrete edit sequence keeps all values among the three
labels, and an override-change with the empty string deletes exactly the
edited entry. -/
theorem c8_tier_override_invariant_witness :
    JiraExportPage.ValidTierMap
      (JiraExportPage.applyTierEdits [("CVE-1", "Tier 1")]
        [JiraExportPage.TierEdit.overrideChange "CVE-2" "Tier 2",
         JiraExportPage.TierEdit.tierChange "CVE-1" "Tier 3"]) ∧
    List.lookup "CVE-1"
      (JiraExportPage.handleTierOverrideChange [("CVE-1", "Tier 1"), ("CVE-2", "Tier 2")]
        "CVE-1" "") = none ∧
    List.lookup "CVE-2"
      (JiraExportPage.handleTierOverrideChange [("CVE-1", "Tier 1"), ("CVE-2", "Tier 2")]
        "CVE-1" "")
      = List.lookup "CVE-2" [("CVE-1", "Tier 1"), ("CVE-2", "Tier 2")] :=
  ⟨c8_tier_override_invariant.1 [("CVE-1", "Tier 1")]
      [JiraExportPage.TierEdit.overrideChange "CVE-2" "Tier 2",
       JiraExportPage.TierEdit.tierChange "CVE-1" "Tier 3"]
      (by intro p hp; rcases List.mem_singleton.1 hp with rfl; decide),
   (c8_tier_override_invariant.2.1 [("CVE-1", "Tier 1"), ("CVE-2", "Tier 2")]
      "CVE-1" "" (Or.inl rfl)).1,
   (c8_tier_override_invariant.2.1 [("CVE-1", "Tier 1"), ("CVE-2", "Tier 2")]
      "CVE-1" "" (Or.inl rfl)).2 "CVE-2" (by decide)⟩

/-- C8 counterexample: the claim says selecting the empty string deletes the
entry through either handler, but handleTierChange of the results page
leaves the stored entry in place. -/
theorem c8_tier_override_counterexample :
    Results.handleTierChange [("CVE-1", "Tier 1")] "CVE-1" "" = [("CVE-1", "Tier 1")] ∧
    ¬ List.lookup "CVE-1" (Results.handleTierChange [("CVE-1", "Tier 1")] "CVE-1" "")
        = none := by
  constructor
  · decide
  · decide

/-- Counting a severity over a cons cell. -/
theorem sevCount_cons (c : VulnerabilityCluster) (rest : List VulnerabilityCluster)
    (v : String) :
    Results.sevCount (c :: rest) v
      = (if trimStr (lowerStr c.severity) == v then 1 else 0) + Results.sevCount rest v := by
  unfold Results.sevCount
  rw [List.filter_cons]
  split
  · simp [List.length_cons]
    omega
  · simp

/-- Unrolling of the severityBreakdown fold: each slot accumulates exactly
the matching severity count. -/
theorem severityBreakdown_go (clusters : List VulnerabilityCluster) :
    ∀ acc : Results.SeverityCounts,
      clusters.foldl (fun a c => Results.bumpSeverity a c.severity) acc
        = ⟨acc.critical + Results.sevCount clusters "critical",
           acc.high + Results.sevCount clusters "high",
           acc.medium + Results.sevCount clusters "medium",
           acc.low + Results.sevCount clusters "low",
           acc.info + Results.sevCount clusters "info"⟩ := by
  induction clusters with
  | nil =>
    intro acc
    simp [Results.sevCount]
  | cons c rest ih =>
    intro acc
    rw [List.foldl_cons, ih (Results.bumpSeverity acc c.severity)]
    rw [sevCount_cons, sevCount_cons, sevCount_cons, sevCount_cons, sevCount_cons]
    by_cases h1 : trimStr (lowerStr c.severity) = "critical"
    · simp [Results.bumpSeverity, h1, Results.SeverityCounts.mk.injEq]
      omega
    · by_cases h2 : trimStr (lowerStr c.severity) = "high"
      · simp [Results.bumpSeverity, h1, h2, Results.SeverityCounts.mk.injEq]
        omega
      · by_cases h3 : trimStr (lowerStr c.severity) = "medium"
        · simp [Results.bumpSeverity, h1, h2, h3, Results.SeverityCounts.mk.injEq]
          omega
        · by_cases h4 : trimStr (lowerStr c.severity) = "low"
          · simp [Results.bumpSeverity, h1, h2, h3, h4, Results.SeverityCounts.mk.injEq]
            omega
          · by_cases h5 : trimStr (lowerStr c.severity) = "info"
            · simp [Results.bumpSeverity, h1, h2, h3, h4, h5,
                Results.SeverityCounts.mk.injEq]
              omega
            · simp [Results.bumpSeverity, h1, h2, h3, h4, h5,
                Results.SeverityCounts.mk.injEq]

/-- Under the canonical-severity invariant the five counts partition the
cluster list. -/
theorem sevCount_sum :
    ∀ clusters : List VulnerabilityCluster,
      (∀ c ∈ clusters, c.severity ∈ ClusterValidation.CLUSTER_SEVERITIES) →
      Results.sevCount clusters "critical" + Results.sevCount clusters "high"
        + Results.sevCount clusters "medium" + Results.sevCount clusters "low"
        + Results.sevCount clusters "info" = clusters.length := by
  intro clusters
  induction clusters with
  | nil =>
    intro h
    simp [Results.sevCount]
  | cons c rest ih =>
    intro h
    have hc := h c (List.mem_cons_self c rest)
    have ih' := ih (fun x hx => h x (List.mem_cons_of_mem c hx))
    rw [sevCount_cons, sevCount_cons, sevCount_cons, sevCount_cons, sevCount_cons,
      List.length_cons]
    have e1 : trimStr (lowerStr "critical") = "critical" := by decide
    have e2 : trimStr (lowerStr "high") = "high" := by decide
    have e3 : trimStr (lowerStr "medium") = "medium" := by decide
    have e4 : trimStr (lowerStr "low") = "low" := by decide
    have e5 : trimStr (lowerStr "info") = "info" := by decide
    simp [ClusterValidation.CLUSTER_SEVERITIES] at hc
    rcases hc with h1 | h1 | h1 | h1 | h1 <;> rw [h1] <;>
      simp [e1, e2, e3, e4, e5] <;> omega

/-- C3: severityBreakdown returns, for each of the five canonical
severities, the count of clusters whose severity lowercased and trimmed
equals that value and counts nothing else; under the invariant that every
severity is canonical, the five counts sum to the number of clusters. -/
theorem c3_severity_breakdown :
    ∀ clusters : List VulnerabilityCluster,
      Results.severityBreakdown clusters
        = ⟨Results.sevCount clusters "critical", Results.sevCount clusters "high",
           Results.sevCount clusters "medium", Results.sevCount clusters "low",
           Results.sevCount clusters "info"⟩ ∧
      ((∀ c ∈ clusters, c.severity ∈ ClusterValidation.CLUSTER_SEVERITIES) →
        (Results.severityBreakdown clusters).critical
          + (Results.severityBreakdown clusters).high
          + (Results.severityBreakdown clusters).medium
          + (Results.severityBreakdown clusters).low
          + (Results.severityBreakdown clusters).info = clusters.length) := by
  intro clusters
  have hb : Results.severityBreakdown clusters
      = ⟨Results.sevCount clusters "critical", Results.sevCount clusters "high",
         Results.sevCount clusters "medium", Results.sevCount clusters "low",
         Results.sevCount clusters "info"⟩ := by
    unfold Results.severityBreakdown
    rw [severityBreakdown_go clusters ⟨0, 0, 0, 0, 0⟩]
    simp
  refine ⟨hb, fun hcanon => ?_⟩
  rw [hb]
  exact sevCount_sum clusters hcanon

/-- C3 witness: two clusters with canonical severities critical and info
give counts summing to the list length. -/
theorem c3_severity_breakdown_witness :
    (Results.severityBreakdown
        [⟨"v1", "critical", "r", none, none, 9, "d", ["f"], 1, 1⟩,
         ⟨"v2", "info", "r", none, none, 1, "d", ["g"], 1, 1⟩]).critical
      + (Results.severityBreakdown
        [⟨"v1", "critical", "r", none, none, 9, "d", ["f"], 1, 1⟩,
         ⟨"v2", "info", "r", none, none, 1, "d", ["g"], 1, 1⟩]).high
      + (Results.severityBreakdown
        [⟨"v1", "critical", "r", none, none, 9, "d", ["f"], 1, 1⟩,
         ⟨"v2", "info", "r", none, none, 1, "d", ["g"], 1, 1⟩]).medium
      + (Results.severityBreakdown
        [⟨"v1", "critical", "r", none, none, 9, "d", ["f"], 1, 1⟩,
         ⟨"v2", "info", "r", none, none, 1, "d", ["g"], 1, 1⟩]).low
      + (Results.severityBreakdown
        [⟨"v1", "critical", "r", none, none, 9, "d", ["f"], 1, 1⟩,
         ⟨"v2", "info", "r", none, none, 1, "d", ["g"], 1, 1⟩]).info
      = 2 :=
  (c3_severity_breakdown
    [⟨"v1", "critical", "r", none, none, 9, "d", ["f"], 1, 1⟩,
     ⟨"v2", "info", "r", none, none, 1, "d", ["g"], 1, 1⟩]).2 (by decide)

/-- C4: a Jira export response received with HTTP success always reports
success, the message opens with the exported issue and epic counts in the
fixed wording, equals exactly that wording when no errors were returned,
every returned error string appears verbatim in the message when errors are
present, and the jira-export page classifies a successful response with a
non-empty errors array as partial success rather than a fatal failure. -/
theorem c4_export_partial_success :
    ∀ (epics : List (String × String)) (issues : List Results.JiraIssue)
      (errors : List String),
      (Results.handleExportToJira ⟨some epics, some issues, some errors⟩).1
        = Results.ExportStatus.success ∧
      (∃ tail : String,
        (Results.handleExportToJira ⟨some epics, some issues, some errors⟩).2
          = "Exported " ++ toString issues.length ++ " issue(s) under "
            ++ toString epics.length ++ " epic(s)." ++ tail) ∧
      (errors = [] →
        (Results.handleExportToJira ⟨some epics, some issues, some errors⟩).2
          = "Exported " ++ toString issues.length ++ " issue(s) under "
            ++ toString epics.length ++ " epic(s).") ∧
      (∀ e ∈ errors, ∃ pre post,
        (Results.handleExportToJira ⟨some epics, some issues, some errors⟩).2
          = pre ++ (e ++ post)) ∧
      (JiraExportPage.hasPartialSuccessErrors
          (Results.handleExportToJira ⟨some epics, some issues, some errors⟩).1
          (some ⟨some epics, some issues, some errors⟩) = true ↔ errors ≠ []) := by
  intro epics issues errors
  refine ⟨rfl, ?_, ?_, ?_, ?_⟩
  · by_cases herr : errors.length > 0
    · refine ⟨" " ++ joinSpace errors, ?_⟩
      show (if errors.length > 0 then _ else _) = _
      rw [if_pos herr, String.append_assoc]
    · refine ⟨"", ?_⟩
      show (if errors.length > 0 then _ else _) = _
      rw [if_neg herr, String.append_empty]
  · intro he
    subst he
    simp [Results.handleExportToJira]
  · intro e he
    have herr : errors.length > 0 := by
      cases errors with
      | nil => cases he
      | cons a rest => simp
    rcases joinSpace_mem_decomp he with ⟨pre, post, hj⟩
    refine ⟨"Exported " ++ toString issues.length ++ " issue(s) under "
        ++ toString epics.length ++ " epic(s)." ++ " " ++ pre, post, ?_⟩
    show (if errors.length > 0 then _ else _) = _
    rw [if_pos herr, hj]
    simp [String.append_assoc]
  · unfold JiraExportPage.hasPartialSuccessErrors
    constructor
    · intro h
      intro hnil
      rw [hnil] at h
      simp at h
    · intro h
      have herr : errors.length > 0 := List.length_pos.2 h
      simp [Results.handleExportToJira, herr]
      rfl

/-- C4 witness: a concrete success response with one issue, one epic and one
error string reports success and shows the error inside the message. -/
theorem c4_export_partial_success_witness :
    (Results.handleExportToJira
        ⟨some [("Tier 1", "EPIC-1")], some [⟨"t", "KEY-1", "Tier 1"⟩], some ["boom"]⟩).1
      = Results.ExportStatus.success ∧
    (∃ pre post,
      (Results.handleExportToJira
          ⟨some [("Tier 1", "EPIC-1")], some [⟨"t", "KEY-1", "Tier 1"⟩], some ["boom"]⟩).2
        = pre ++ ("boom" ++ post)) :=
  ⟨(c4_export_partial_success [("Tier 1", "EPIC-1")] [⟨"t", "KEY-1", "Tier 1"⟩]
      ["boom"]).1,
   (c4_export_partial_success [("Tier 1", "EPIC-1")] [⟨"t", "KEY-1", "Tier 1"⟩]
      ["boom"]).2.2.2.1 "boom" (by simp)⟩

/-- C6: the upload page displays the accepted count from the success
response; on a failure carrying a non-empty validation detail list it stores
exactly that list, suppressing the generic error message, and renders one
entry per validation error, each joining the loc path with arrows and a
colon before the message when loc is present and non-empty, and just the
message otherwise. -/
theorem c6_upload_validation_feedback :
    (∀ resp : Upload.UploadResponse, ∃ tail,
      Upload.uploadSuccessText resp
        = "Done. Accepted: " ++ toString resp.accepted ++ tail) ∧
    (∀ (err : Upload.UploadErrorInfo) (l : List Upload.ValidationErrorItem),
      err.detail = some l → l ≠ [] →
      Upload.uploadFailureState err = (some l, none)) ∧
    (∀ l : List Upload.ValidationErrorItem,
      (Upload.renderValidationList l).length = l.length) ∧
    (∀ (v : Upload.ValidationErrorItem) (locs : List String),
      v.loc = some locs → locs ≠ [] →
      Upload.renderValidationItem v = String.intercalate " → " locs ++ ": " ++ v.msg) ∧
    (∀ v : Upload.ValidationErrorItem, v.loc = none →
      Upload.renderValidationItem v = v.msg) := by
  refine ⟨?_, ?_, ?_, ?_, ?_⟩
  · intro resp
    by_cases h : resp.ids.length > 0
    · exact ⟨". IDs: " ++ toString resp.ids.length, by
        unfold Upload.uploadSuccessText
        rw [if_pos h, String.append_assoc]⟩
    · exact ⟨"", by
        unfold Upload.uploadSuccessText
        rw [if_neg h, String.append_empty]⟩
  · intro err l hd hne
    unfold Upload.uploadFailureState
    rw [hd]
    show (if l.length > 0 then (some l, none) else (none, some err.generic)) = (some l, none)
    rw [if_pos (List.length_pos.2 hne)]
  · intro l
    unfold Upload.renderValidationList
    exact List.length_map l Upload.renderValidationItem
  · intro v locs hl hne
    unfold Upload.renderValidationItem
    rw [hl]
    show (if locs.length > 0 then String.intercalate " → " locs ++ ": " else "") ++ v.msg
      = String.intercalate " → " locs ++ ": " ++ v.msg
    rw [if_pos (List.length_pos.2 hne)]
  · intro v hl
    unfold Upload.renderValidationItem
    rw [hl]
    rw [String.empty_append]

/-- C6 witness: a concrete validation failure with one loc-bearing error is
stored with the generic message suppressed and renders in the loc-colon-msg
format. -/
theorem c6_upload_validation_feedback_witness :
    Upload.uploadFailureState
        ⟨some [⟨some ["body", "0", "severity"], "field required"⟩], "Bad Request"⟩
      = (some [⟨some ["body", "0", "severity"], "field required"⟩], none) ∧
    Upload.renderValidationItem ⟨some ["body", "0", "severity"], "field required"⟩
      = String.intercalate " → " ["body", "0", "severity"] ++ ": " ++ "field required" :=
  ⟨c6_upload_validation_feedback.2.1
      ⟨some [⟨some ["body", "0", "severity"], "field required"⟩], "Bad Request"⟩
      [⟨some ["body", "0", "severity"], "field required"⟩] rfl (by simp),
   c6_upload_validation_feedback.2.2.2.1
      ⟨some ["body", "0", "severity"], "field required"⟩
      ["body", "0", "severity"] rfl (by simp)⟩

/-- The combined required-field check fails when cvss_score did not
validate, whatever the other fields hold. -/
theorem requiredEight_no_cv (i : Nat) (fp dep vid sev rep desc : Option String)
    (fids : Option (List String)) (asc fc : Option ℚ) :
    ClusterValidation.requiredEight i fp dep vid sev rep none desc fids asc fc
      = Except.error (ClusterValidation.missingFieldsMsg i) := by
  cases vid <;> cases sev <;> cases rep <;> cases desc <;> cases fids <;>
    cases asc <;> cases fc <;> rfl

/-- The combined required-field check fails when finding_ids did not
validate, whatever the other fields hold. -/
theorem requiredEight_no_fids (i : Nat) (fp dep vid sev rep desc : Option String)
    (cv : Option ℚ) (asc fc : Option ℚ) :
    ClusterValidation.requiredEight i fp dep vid sev rep cv desc none asc fc
      = Except.error (ClusterValidation.missingFieldsMsg i) := by
  cases vid <;> cases sev <;> cases rep <;> cases cv <;> cases desc <;>
    cases asc <;> cases fc <;> rfl

/-- A successful required-field check pins finding_ids to the validated
string list of the produced cluster. -/
theorem requiredEight_ok_fids {i : Nat} {fp dep vid sev rep desc : Option String}
    {cv : Option ℚ} {fids : Option (List String)} {asc fc : Option ℚ}
    {c : VulnerabilityCluster}
    (h : ClusterValidation.requiredEight i fp dep vid sev rep cv desc fids asc fc
      = Except.ok c) : fids = some c.finding_ids := by
  cases vid <;> cases sev <;> cases rep <;> cases cv <;> cases desc <;> cases fids <;>
    cases asc <;> cases fc <;> simp [ClusterValidation.requiredEight] at h <;>
    rw [← h]

/-- An array holding any non-string element fails the all-strings check. -/
theorem allStrings_eq_none {xs : List JsonVal}
    (hx : ∃ x ∈ xs, ∀ s, x ≠ JsonVal.jstr s) :
    ClusterValidation.allStrings xs = none := by
  induction xs with
  | nil =>
    rcases hx with ⟨x, hmem, -⟩
    cases hmem
  | cons y ys ih =>
    rcases hx with ⟨x, hmem, hns⟩
    rcases List.mem_cons.1 hmem with rfl | hmem'
    · cases x with
      | jstr s => exact absurd rfl (hns s)
      | jnull => rfl
      | jbool b => rfl
      | jnum q => rfl
      | jarr l => rfl
      | jobj f => rfl
    · cases y with
      | jstr s =>
        have hy := ih ⟨x, hmem', hns⟩
        simp [ClusterValidation.allStrings, hy]
      | jnull => rfl
      | jbool b => rfl
      | jnum q => rfl
      | jarr l => rfl
      | jobj f => rfl

/-- A passed all-strings check means every element is a string. -/
theorem allStrings_some_strings {xs : List JsonVal} {l : List String}
    (h : ClusterValidation.allStrings xs = some l) :
    ∀ x ∈ xs, ∃ s, x = JsonVal.jstr s := by
  induction xs generalizing l with
  | nil =>
    intro x hx
    cases hx
  | cons y ys ih =>
    intro x hx
    cases y with
    | jstr s =>
      rcases List.mem_cons.1 hx with rfl | hx'
      · exact ⟨s, rfl⟩
      · simp [ClusterValidation.allStrings] at h
        rcases h with ⟨l', hl', -⟩
        exact ih hl' x hx'
    | jnull => simp [ClusterValidation.allStrings] at h
    | jbool b => simp [ClusterValidation.allStrings] at h
    | jnum q => simp [ClusterValidation.allStrings] at h
    | jarr l2 => simp [ClusterValidation.allStrings] at h
    | jobj f => simp [ClusterValidation.allStrings] at h

/-- The finding_ids parse yields none when the stored array fails the
all-strings check. -/
theorem parseFindingIds_eq_none {fields : List (String × JsonVal)} {xs : List JsonVal}
    (hget : getField fields "finding_ids" = some (JsonVal.jarr xs))
    (hall : ClusterValidation.allStrings xs = none) :
    ClusterValidation.parseFindingIds fields = none := by
  unfold ClusterValidation.parseFindingIds
  rw [hget]
  exact hall

/-- A successful finding_ids parse comes from a stored array passing the
all-strings check. -/
theorem parseFindingIds_eq_some {fields : List (String × JsonVal)} {l : List String}
    (h : ClusterValidation.parseFindingIds fields = some l) :
    ∃ xs, getField fields "finding_ids" = some (JsonVal.jarr xs) ∧
      ClusterValidation.allStrings xs = some l := by
  unfold ClusterValidation.parseFindingIds at h
  cases hg : getField fields "finding_ids" with
  | none =>
    rw [hg] at h
    cases h
  | some v =>
    cases v with
    | jarr xs =>
      rw [hg] at h
      exact ⟨xs, rfl, h⟩
    | jnull => rw [hg] at h; cases h
    | jbool b => rw [hg] at h; cases h
    | jnum q => rw [hg] at h; cases h
    | jstr s => rw [hg] at h; cases h
    | jobj f => rw [hg] at h; cases h

/-- C10: validation rejects every cluster object whose finding_ids array
holds any non-string element, in particular integer database ids, with the
missing-or-invalid-required-fields error for that index; and every accepted
cluster has finding_ids stored as an array of strings only. -/
theorem c10_finding_ids_reject_nonstring :
    (∀ (i : Nat) (fields : List (String × JsonVal)) (xs : List JsonVal),
      getField fields "finding_ids" = some (JsonVal.jarr xs) →
      (∃ x ∈ xs, ∀ s, x ≠ JsonVal.jstr s) →
      ClusterValidation.validateCluster i (JsonVal.jobj fields)
        = Except.error (ClusterValidation.missingFieldsMsg i)) ∧
    (∀ (i : Nat) (fields : List (String × JsonVal)) (c : VulnerabilityCluster),
      ClusterValidation.validateCluster i (JsonVal.jobj fields) = Except.ok c →
      ∃ xs, getField fields "finding_ids" = some (JsonVal.jarr xs) ∧
        ClusterValidation.allStrings xs = some c.finding_ids ∧
        ∀ x ∈ xs, ∃ s, x = JsonVal.jstr s) := by
  constructor
  · intro i fields xs hget hx
    show ClusterValidation.validateFields i fields = _
    unfold ClusterValidation.validateFields
    rw [parseFindingIds_eq_none hget (allStrings_eq_none hx)]
    apply requiredEight_no_fids
  · intro i fields c h
    have hv : ClusterValidation.validateFields i fields = Except.ok c := h
    unfold ClusterValidation.validateFields at hv
    have hfids := requiredEight_ok_fids hv
    rcases parseFindingIds_eq_some hfids with ⟨xs, hget, hall⟩
    exact ⟨xs, hget, hall, allStrings_some_strings hall⟩

/-- C10 witness: a cluster whose finding_ids are the integer ids 101 and
102 is rejected at index 0 with the missing-fields error. -/
theorem c10_finding_ids_reject_nonstring_witness :
    ClusterValidation.validateCluster 0
        (JsonVal.jobj [("vulnerability_id", JsonVal.jstr "CVE-2023-1234"),
          ("severity", JsonVal.jstr "high"),
          ("repo", JsonVal.jstr "repo-a"),
          ("cvss_score", JsonVal.jnum 7),
          ("description", JsonVal.jstr "desc"),
          ("finding_ids", JsonVal.jarr [JsonVal.jnum 101, JsonVal.jnum 102]),
          ("affected_services_count", JsonVal.jnum 1),
          ("finding_count", JsonVal.jnum 1)])
      = Except.error (ClusterValidation.missingFieldsMsg 0) :=
  c10_finding_ids_reject_nonstring.1 0
      [("vulnerability_id", JsonVal.jstr "CVE-2023-1234"),
       ("severity", JsonVal.jstr "high"),
       ("repo", JsonVal.jstr "repo-a"),
       ("cvss_score", JsonVal.jnum 7),
       ("description", JsonVal.jstr "desc"),
       ("finding_ids", JsonVal.jarr [JsonVal.jnum 101, JsonVal.jnum 102]),
       ("affected_services_count", JsonVal.jnum 1),
       ("finding_count", JsonVal.jnum 1)]
      [JsonVal.jnum 101, JsonVal.jnum 102] rfl
      ⟨JsonVal.jnum 101, List.mem_cons_self _ _, fun _ hs => JsonVal.noConfusion hs⟩

/-- Unfolding of parsePastedClusters on a parsed array. -/
theorem parsePastedClusters_jarr (arr : List JsonVal) :
    ClusterValidation.parsePastedClusters (JsonVal.jarr arr)
      = if arr.length > ClusterValidation.MAX_CLUSTERS then
          Except.error ClusterValidation.tooManyClustersMsg
        else ClusterValidation.parseClusterItems 0 arr := rfl

/-- A successful validation loop validates exactly one cluster per element,
in input order. -/
theorem parseClusterItems_ok {items : List JsonVal} :
    ∀ {i : Nat} {cs : List VulnerabilityCluster},
      ClusterValidation.parseClusterItems i items = Except.ok cs →
      cs.length = items.length ∧
      ∀ k (hk : k < items.length) (hk' : k < cs.length),
        ClusterValidation.validateCluster (i + k) (items.get ⟨k, hk⟩)
          = Except.ok (cs.get ⟨k, hk'⟩) := by
  induction items with
  | nil =>
    intro i cs h
    simp [ClusterValidation.parseClusterItems] at h
    subst h
    exact ⟨rfl, fun k hk _ => absurd hk (by simp)⟩
  | cons item rest ih =>
    intro i cs h
    unfold ClusterValidation.parseClusterItems at h
    cases hv : ClusterValidation.validateCluster i item with
    | error e =>
      rw [hv] at h
      cases h
    | ok c =>
      rw [hv] at h
      cases hr : ClusterValidation.parseClusterItems (i + 1) rest with
      | error e =>
        rw [hr] at h
        cases h
      | ok cs' =>
        rw [hr] at h
        have hcs : cs = c :: cs' := by
          simp at h
          exact h.symm
        subst hcs
        rcases ih hr with ⟨hlen, hpt⟩
        refine ⟨by simp [hlen], ?_⟩
        intro k hk hk'
        cases k with
        | zero =>
          simpa using hv
        | succ k' =>
          have hk2 : k' < rest.length := by simpa using hk
          have hk2' : k' < cs'.length := by simpa using hk'
          have hstep := hpt k' hk2 hk2'
          have harith : i + (k' + 1) = (i + 1) + k' := by omega
          rw [harith]
          simpa using hstep

/-- When every element validates, the validation loop succeeds. -/
theorem parseClusterItems_all_ok {items : List JsonVal} :
    ∀ i : Nat,
      (∀ k (hk : k < items.length), ∃ c,
        ClusterValidation.validateCluster (i + k) (items.get ⟨k, hk⟩) = Except.ok c) →
      ∃ cs, ClusterValidation.parseClusterItems i items = Except.ok cs := by
  induction items with
  | nil =>
    intro i h
    exact ⟨[], rfl⟩
  | cons item rest ih =>
    intro i h
    rcases h 0 (by simp) with ⟨c, hc⟩
    have hc' : ClusterValidation.validateCluster i item = Except.ok c := by
      simpa using hc
    have hrest : ∀ k (hk : k < rest.length), ∃ c',
        ClusterValidation.validateCluster ((i + 1) + k) (rest.get ⟨k, hk⟩)
          = Except.ok c' := by
      intro k hk
      have hk1 : k + 1 < (item :: rest).length := by simpa using Nat.succ_lt_succ hk
      rcases h (k + 1) hk1 with ⟨c', hc2⟩
      refine ⟨c', ?_⟩
      have harith : (i + 1) + k = i + (k + 1) := by omega
      rw [harith]
      simpa using hc2
    rcases ih (i + 1) hrest with ⟨cs, hcs⟩
    refine ⟨c :: cs, ?_⟩
    unfold ClusterValidation.parseClusterItems
    rw [hc', hcs]

/-- C9: a pasted array of more than 100 clusters fails with the fixed cap
message and yields no clusters; an array of at most 100 elements that all
pass field validation yields exactly one validated cluster per element, in
input order. -/
theorem c9_cluster_cap_and_order :
    ∀ arr : List JsonVal,
      (arr.length > ClusterValidation.MAX_CLUSTERS →
        ClusterValidation.parsePastedClusters (JsonVal.jarr arr)
          = Except.error "At most 100 clusters are allowed.") ∧
      (∀ cs, ClusterValidation.parsePastedClusters (JsonVal.jarr arr) = Except.ok cs →
        cs.length = arr.length ∧
        ∀ k (hk : k < arr.length) (hk' : k < cs.length),
          ClusterValidation.validateCluster k (arr.get ⟨k, hk⟩)
            = Except.ok (cs.get ⟨k, hk'⟩)) ∧
      (arr.length ≤ ClusterValidation.MAX_CLUSTERS →
        (∀ k (hk : k < arr.length), ∃ c,
          ClusterValidation.validateCluster k (arr.get ⟨k, hk⟩) = Except.ok c) →
        ∃ cs, ClusterValidation.parsePastedClusters (JsonVal.jarr arr) = Except.ok cs) := by
  intro arr
  refine ⟨?_, ?_, ?_⟩
  · intro h
    rw [parsePastedClusters_jarr, if_pos h]
    have hmsg : ClusterValidation.tooManyClustersMsg
        = "At most 100 clusters are allowed." := by decide
    rw [hmsg]
  · intro cs h
    rw [parsePastedClusters_jarr] at h
    by_cases hlen : arr.length > ClusterValidation.MAX_CLUSTERS
    · rw [if_pos hlen] at h
      cases h
    · rw [if_neg hlen] at h
      rcases parseClusterItems_ok h with ⟨hl, hpt⟩
      exact ⟨hl, fun k hk hk' => by simpa using hpt k hk hk'⟩
  · intro hle hall
    rw [parsePastedClusters_jarr, if_neg (Nat.not_lt.2 hle)]
    exact parseClusterItems_all_ok 0 (fun k hk => by simpa using hall k hk)

/-- C9 witness: 101 pasted elements are refused with the cap message, and a
single fully valid pasted cluster parses successfully. -/
theorem c9_cluster_cap_and_order_witness :
    ClusterValidation.parsePastedClusters
        (JsonVal.jarr (List.replicate 101 JsonVal.jnull))
      = Except.error "At most 100 clusters are allowed." ∧
    ∃ cs, ClusterValidation.parsePastedClusters
        (JsonVal.jarr [sampleClusterObj (JsonVal.jnum 7)]) = Except.ok cs :=
  ⟨(c9_cluster_cap_and_order (List.replicate 101 JsonVal.jnull)).1 (by decide),
   (c9_cluster_cap_and_order [sampleClusterObj (JsonVal.jnum 7)]).2.2 (by decide)
     (by
       intro k hk
       have hk0 : k = 0 := Nat.lt_one_iff.1 (by simpa using hk)
       subst hk0
       exact ⟨⟨"CVE-2023-1234", "high", "repo-a", none, some "lodash", 7, "desc",
         ["f1"], 1, 1⟩, rfl⟩)⟩

/-- C2: contrary to the spec type float 0 to 10 or null, a pasted cluster
that is valid in every other field is rejected when its cvss_score is null,
with the missing-or-invalid-required-fields error; a numeric cvss_score is
accepted exactly when it lies in the closed interval from 0 to 10. -/
theorem c2_cvss_null_rejected :
    ClusterValidation.parsePastedClusters (JsonVal.jarr [sampleClusterObj JsonVal.jnull])
      = Except.error (ClusterValidation.missingFieldsMsg 0) ∧
    ∀ q : ℚ,
      (∃ c, ClusterValidation.validateCluster 0 (sampleClusterObj (JsonVal.jnum q))
        = Except.ok c) ↔ 0 ≤ q ∧ q ≤ 10 := by
  constructor
  · rfl
  · intro q
    constructor
    · rintro ⟨c, hc⟩
      by_contra hq
      have hnone : ClusterValidation.parseCvss (sampleClusterFields (JsonVal.jnum q))
          = none := by
        show (if 0 ≤ q ∧ q ≤ 10 then some q else none) = none
        rw [if_neg hq]
      have herr : ClusterValidation.validateCluster 0 (sampleClusterObj (JsonVal.jnum q))
          = Except.error (ClusterValidation.missingFieldsMsg 0) := by
        show ClusterValidation.validateFields 0 (sampleClusterFields (JsonVal.jnum q)) = _
        unfold ClusterValidation.validateFields
        rw [hnone]
        apply requiredEight_no_cv
      rw [herr] at hc
      cases hc
    · intro hq
      refine ⟨⟨"CVE-2023-1234", "high", "repo-a", none, some "lodash", q, "desc",
        ["f1"], 1, 1⟩, ?_⟩
      show ClusterValidation.validateFields 0 (sampleClusterFields (JsonVal.jnum q)) = _
      unfold ClusterValidation.validateFields
      have hsome : ClusterValidation.parseCvss (sampleClusterFields (JsonVal.jnum q))
          = some q := by
        show (if 0 ≤ q ∧ q ≤ 10 then some q else none) = some q
        rw [if_pos hq]
      rw [hsome]
      rfl

end Helion
